import Mathlib

/-!
A shallow embedding of the integrity-monitoring engine found in
`src/sdk/src/main/cpp/memory_monitor.cpp` (class `MemoryMonitor`), together
with proofs about the behaviour its specification claims.

Modelling conventions, fixed once here:

* The SHA-256 primitive is an external collaborator; it is threaded through
  the operations as an abstract parameter `H : List Nat → List Nat` producing
  a 32-byte digest (`calculateHash` in the source).  Bytes are `Nat`s below
  256.  `compareHashes` (a `memcmp` over exactly 32 bytes) is modelled as
  list equality, exact for 32-byte digests.
* The entropy source (`fill_random_buffer`, which always fills its buffer)
  is threaded into `protectMemoryRegion` as the parameter `rnd`.
* The filesystem is a function `fs : String → FsEntry`; `FsEntry` records
  whether `open(2)` fails, whether `fstat(2)` fails after a successful open,
  or the file's content (in which case `st_size` is the content length and
  `read(2)` returns the requested span of the content).  The `read(2) < 0`
  branches of the source (which just return failure) and the `malloc`
  failure branches are not reachable in this model: reads and allocations
  are modelled as succeeding.
* The C++ methods all return a bare `bool`, conflating structural failures
  with the tamper verdict.  Following the specification's error taxonomy
  (section 7), each `return false;` site is classified: the
  monitoring-inactive guard is `notMonitoring`, a failed registry lookup is
  `regionNotFound`, failed open/stat/read is `ioFailure`; the sites that
  raise a tamper verdict stay ordinary results `ok false`.  `ok true` / `ok
  false` carry exactly the C++ `true`/`false` returns on the non-structural
  paths.
* `notifyTampering` invocations are recorded in an emitted event list
  (delivery further requires a registered callback; the single-slot
  callback is not itself claim-relevant).  `__android_log_print` calls are
  ignored.  `mprotect`/`munmap` on a live mapping are modelled as
  succeeding (their failures are logged and swallowed in the source);
  `mprotect` on a null mapping fails.
* A region's mapped bytes are `content : Option (List Nat)`; `some bs`
  models a live mapping of `info.size` bytes (invariant: `bs.length =
  size`), `none` models `address == nullptr` (file-backed regions).
  `calculateHash(info.address, info.size)` is therefore `H bs`.
* Each member function reads and writes only the fields `is_monitoring_`,
  `memory_regions`, `protected_regions_`, `critical_regions_`.  The
  embedding makes this explicit: every operation is a core function over
  exactly the fields it uses, plus a thin wrapper performing one record
  update on the session state.
-/

namespace MemoryMonitor

/-- Error taxonomy of the specification (section 7) for the structural
`return false;` sites of the C++ source. -/
inductive MError where
  | notMonitoring
  | regionNotFound
  | ioFailure
deriving Repr, DecidableEq

/-- Result of one engine call: a structural failure, or the C++ boolean
(`true` = success / intact, `false` = tamper verdict). -/
inductive MRes where
  | err (e : MError)
  | ok (b : Bool)
deriving Repr, DecidableEq

/-- `bool regionIntact = scanMemoryRegion(region);` — how the C++ caller
sees an `MRes`: every structural failure is the bare `false`. -/
def mresIsTrue : MRes → Bool
  | .ok true => true
  | _ => false

/-- `struct MemoryRegionInfo` (memory_monitor.cpp lines 32-37).  `content`
models the bytes behind `address` (`none` = `nullptr`).  The C++ leaves
`is_protected` uninitialized on the file paths; the model uses `false`
there (the field is never read by the engine). -/
structure MemoryRegionInfo where
  content : Option (List Nat)
  size : Nat
  hash : List Nat
  isProtected : Bool
deriving Repr, DecidableEq

/-- The `memory_regions` table: an association list with unique keys. -/
abbrev Regions := List (String × MemoryRegionInfo)

/-- Model of one filesystem path's behaviour for this process. -/
inductive FsEntry where
  /-- `open(2)` fails with error text `err`. -/
  | absent (err : String)
  /-- `open(2)` succeeds, `fstat(2)` fails with error text `err`;
  `read(2)` still returns (a span of) `content`. -/
  | statFail (content : List Nat) (err : String)
  /-- `open`, `fstat`, `read` all succeed; `st_size = content.length`. -/
  | file (content : List Nat)
deriving Repr, DecidableEq

/-- The whole mutable state of one `MemoryMonitor`: `is_monitoring_`, the
(process-wide in C++, per-session here, cf. spec section 9) map
`memory_regions`, and the `protected_regions_` / `critical_regions_`
vectors. -/
structure MonState where
  monitoring : Bool
  regions : Regions
  protectedRegions : List String
  criticalRegions : List String
deriving Repr, DecidableEq

/-- `memory_regions.find(region)`. -/
def lookupR (l : Regions) (k : String) : Option MemoryRegionInfo :=
  match l.find? (fun p => p.1 == k) with
  | some p => some p.2
  | none => none

/-- `memory_regions[region] = info` — replace the entry in place if the
key is present (keys are unique in a `std::map`), else append. -/
def insertR : Regions → String → MemoryRegionInfo → Regions
  | [], k, v => [(k, v)]
  | p :: t, k, v => if p.1 == k then (k, v) :: t else p :: insertR t k v

/-- `memory_regions.erase(it)`. -/
def eraseR (l : Regions) (k : String) : Regions :=
  l.eraseP (fun p => p.1 == k)

/-- `region.find(p) == 0` for a needle `p` — string starts-with, spelled
out over the character lists (needle first). -/
def charsPre : List Char → List Char → Bool
  | [], _ => true
  | _ :: _, [] => false
  | a :: as, b :: bs => a == b && charsPre as bs

/-- `region.find(p) == 0` on `String`s. -/
def strHasPre (s p : String) : Bool :=
  charsPre p.data s.data

/-- One byte rendered as `%02x`. -/
def hexByte (n : Nat) : String :=
  let ds := "0123456789abcdef".data
  String.mk [ds.getD ((n % 256) / 16) '0', ds.getD (n % 16) '0']

/-- The 8-byte hash prefix string the source embeds in tamper details. -/
def hexOfFirst8 (d : List Nat) : String :=
  String.join ((d.take 8).map hexByte)

/-- The byte-wise Hamming distance over the 32 digest positions
(memory_monitor.cpp lines 231-236). -/
def diffCount32 (a b : List Nat) : Nat :=
  (List.range 32).countP (fun i => a.getD i 0 != b.getD i 0)

/-- `memset(info.hash, 0, SHA256_DIGEST_LENGTH)`. -/
def zeros32 : List Nat := List.replicate 32 0

/-- `bytePtr[0] = ~bytePtr[0];` on a `uint8_t` buffer: the complement of a
byte `b < 256` is `255 - b`. -/
def invertFirst : List Nat → List Nat
  | [] => []
  | b :: t => (255 - b) :: t

/-- Output of the core of `scanMemoryRegion`: the (classified) return
value, the resulting `memory_regions` table, the `notifyTampering` events
emitted, whether any filesystem call was made, and whether file content
was read. -/
structure ScanGoOut where
  result : MRes
  regions : Regions
  notifs : List (String × String)
  fsTouched : Bool
  contentRead : Bool
deriving Repr, DecidableEq

/-- Output of `scanMemoryRegion` at the session level. -/
structure ScanOut where
  result : MRes
  state : MonState
  notifs : List (String × String)
  fsTouched : Bool
  contentRead : Bool
deriving Repr, DecidableEq

/-- Output of the remaining effectful calls. -/
structure OpOut where
  result : MRes
  state : MonState
  notifs : List (String × String)
deriving Repr, DecidableEq

/-- Core of `MemoryMonitor::scanMemoryRegion` (memory_monitor.cpp lines
110-327), over the only fields it reads or writes. -/
def scanGo (H : List Nat → List Nat) (fs : String → FsEntry)
    (monitoring : Bool) (regions : Regions) (id : String) : ScanGoOut :=
  if monitoring = false then
    ⟨.err .notMonitoring, regions, [], false, false⟩
  else
    match lookupR regions id with
    | none => ⟨.err .regionNotFound, regions, [], false, false⟩
    | some info =>
      let isFilePath := strHasPre id "/"
      let isProcFile := strHasPre id "/proc/"
      if isProcFile = true ∧ (info.hash.headD 0 = 255 ∨ info.hash.headD 0 = 0) then
        ⟨.ok false, regions,
          [(id, "Simulated tampering detected for: " ++ id)], false, false⟩
      else if isFilePath = true then
        if id = "/proc/self/status" then
          match fs id with
          | .absent _ => ⟨.ok true, regions, [], true, false⟩
          | .statFail c _ | .file c =>
            let bytes := c.take 4096
            if bytes.length > 0 then
              let info2 := { info with hash := H bytes, size := bytes.length }
              ⟨.ok true, insertR regions id info2, [], true, true⟩
            else
              ⟨.ok true, regions, [], true, true⟩
        else
          match fs id with
          | .absent e =>
            ⟨.err .ioFailure, regions,
              if isProcFile = true then []
              else [(id, "File cannot be opened: " ++ id ++ ", Error: " ++ e)],
              true, false⟩
          | .statFail _ e =>
            ⟨.err .ioFailure, regions,
              if isProcFile = true then []
              else [(id, "Failed to get file size: " ++ id ++ ", Error: " ++ e)],
              true, false⟩
          | .file c =>
            if isProcFile = false ∧ c.length ≠ info.size then
              ⟨.ok false, regions,
                [(id, "File size changed: " ++ id ++
                  ", Original size: " ++ toString info.size ++
                  ", Current size: " ++ toString c.length)],
                true, false⟩
            else
              let readSize := if isProcFile = true ∧ c.length = 0 then 4096 else c.length
              let bytes := c.take readSize
              -- `if (isProcFile) info.size = bytesRead;` happens before the compare
              let info1 := if isProcFile = true then { info with size := bytes.length } else info
              let rg1 := if isProcFile = true then insertR regions id info1 else regions
              let cur := H bytes
              let info2 := { info1 with hash := cur }
              if cur = info.hash then
                ⟨.ok true, rg1, [], true, true⟩
              else if isProcFile = true ∧ diffCount32 cur info.hash < 32 / 4 then
                ⟨.ok true, insertR rg1 id info2, [], true, true⟩
              else
                let details := "File content tampered: " ++ id ++
                  ", Original hash prefix: " ++ hexOfFirst8 info.hash ++
                  ", Current hash prefix: " ++ hexOfFirst8 cur
                let rg2 := if isProcFile = true then insertR rg1 id info2 else rg1
                ⟨.ok false, rg2, [(id, details)], true, true⟩
      else
        match info.content with
        | none =>
          -- `mprotect(nullptr, ..)` fails; the source returns false here
          ⟨.err .ioFailure, regions, [], false, false⟩
        | some bs =>
          -- mprotect to PROT_READ succeeds on a live mapping; digest the
          -- live bytes (the 0x00/0xFF diagnostic count feeds only the log)
          let cur := H bs
          if cur = info.hash then
            ⟨.ok true, regions, [], false, false⟩
          else
            let details := "Memory region tampered: " ++ id ++
              ", Original hash prefix: " ++ hexOfFirst8 info.hash ++
              ", Current hash prefix: " ++ hexOfFirst8 cur
            ⟨.ok false, regions, [(id, details)], false, false⟩

/-- `MemoryMonitor::scanMemoryRegion` (memory_monitor.cpp lines 110-327):
the core over `is_monitoring_` and `memory_regions`, written back into the
session state. -/
def scanMemoryRegion (H : List Nat → List Nat) (fs : String → FsEntry)
    (s : MonState) (id : String) : ScanOut :=
  let r := scanGo H fs s.monitoring s.regions id
  ⟨r.result, { s with regions := r.regions }, r.notifs, r.fsTouched, r.contentRead⟩

/-- Core of `MemoryMonitor::protectMemoryRegion` (memory_monitor.cpp lines
387-617).  `rnd` is the buffer `fill_random_buffer` produces (4096 bytes).

The dummy-region fallback of the source (lines 495-572) sits inside the
`else` branch of `if (isFilePath)` but is guarded by
`region.find("/") == 0`, which is false on that branch; it is unreachable
and therefore absent from the model.  An unopenable path — proc or not —
other than `/proc/self/status` reaches `return false;` at line 440. -/
def protectGo (H : List Nat → List Nat) (fs : String → FsEntry)
    (rnd : List Nat) (monitoring : Bool) (regions : Regions)
    (protectedL : List String) (id : String) :
    MRes × Regions × List String :=
  if monitoring = false then
    (.err .notMonitoring, regions, protectedL)
  else if id ∈ protectedL then
    (.ok true, regions, protectedL)
  else if strHasPre id "/" = true then
    if id = "/proc/self/status" then
      match fs id with
      | .absent _ =>
        let info : MemoryRegionInfo := ⟨none, 4096, zeros32, false⟩
        (.ok true, insertR regions id info, protectedL ++ [id])
      | .statFail c _ | .file c =>
        let bytes := c.take 4096
        let info : MemoryRegionInfo :=
          if bytes.length > 0 then ⟨none, bytes.length, H bytes, false⟩
          else ⟨none, 4096, zeros32, false⟩
        (.ok true, insertR regions id info, protectedL ++ [id])
    else
      match fs id with
      | .absent _ => (.err .ioFailure, regions, protectedL)
      | .statFail _ _ => (.err .ioFailure, regions, protectedL)
      | .file c =>
        let isProcFile := strHasPre id "/proc/"
        let readSize := if isProcFile = true ∧ c.length = 0 then 4096 else c.length
        let bytes := c.take readSize
        let info : MemoryRegionInfo := ⟨none, bytes.length, H bytes, false⟩
        (.ok true, insertR regions id info, protectedL ++ [id])
  else
    -- 4096-byte anonymous mapping filled from the entropy source; the
    -- read-only mprotect downgrade is modelled as succeeding (its failure
    -- is logged and non-fatal in the source)
    let info : MemoryRegionInfo := ⟨some rnd, 4096, H rnd, true⟩
    let pr := if id ∈ protectedL then protectedL else protectedL ++ [id]
    (.ok true, insertR regions id info, pr)

/-- `MemoryMonitor::protectMemoryRegion` at the session level. -/
def protectMemoryRegion (H : List Nat → List Nat) (fs : String → FsEntry)
    (rnd : List Nat) (s : MonState) (id : String) : MRes × MonState :=
  let r := protectGo H fs rnd s.monitoring s.regions s.protectedRegions id
  (r.1, { s with regions := r.2.1, protectedRegions := r.2.2 })

/-- Core of `MemoryMonitor::unprotectMemoryRegion` (memory_monitor.cpp
lines 619-648).  `munmap` is best-effort: its failure is logged and
ignored. -/
def unprotectGo (monitoring : Bool) (regions : Regions)
    (protectedL : List String) (id : String) :
    MRes × Regions × List String :=
  if monitoring = false then
    (.err .notMonitoring, regions, protectedL)
  else
    match lookupR regions id with
    | none => (.err .regionNotFound, regions, protectedL)
    | some _ => (.ok true, eraseR regions id, protectedL.erase id)

/-- `MemoryMonitor::unprotectMemoryRegion` at the session level. -/
def unprotectMemoryRegion (s : MonState) (id : String) : MRes × MonState :=
  let r := unprotectGo s.monitoring s.regions s.protectedRegions id
  (r.1, { s with regions := r.2.1, protectedRegions := r.2.2 })

/-- `MemoryMonitor::startMonitoring` (memory_monitor.cpp lines 69-77). -/
def startMonitoring (s : MonState) : MRes × MonState :=
  (.ok true, { s with monitoring := true })

/-- `MemoryMonitor::stopMonitoring` (memory_monitor.cpp lines 79-93).

The source iterates `protected_regions_` by range-for while each
`unprotectMemoryRegion` call erases from that same vector (iterator
invalidation); the model folds `unprotect` over the initial list instead.
The final state is the same either way, because `memory_regions` and
`protected_regions_` are cleared unconditionally right after the loop.
`critical_regions_` is not touched by this function. -/
def stopMonitoring (s : MonState) : MonState :=
  if s.monitoring = false then s
  else
    let s1 := s.protectedRegions.foldl
      (fun t r => (unprotectMemoryRegion t r).2) s
    { s1 with monitoring := false, regions := [], protectedRegions := [] }

/-- `MemoryMonitor::addCriticalRegion` (memory_monitor.cpp lines 357-365):
no monitoring-state guard; appends only when the identifier is absent. -/
def addCriticalRegion (s : MonState) (id : String) : MonState :=
  if id ∈ s.criticalRegions then s
  else { s with criticalRegions := s.criticalRegions ++ [id] }

/-- `MemoryMonitor::removeCriticalRegion` (memory_monitor.cpp lines
367-375): no monitoring-state guard; erases the first occurrence. -/
def removeCriticalRegion (s : MonState) (id : String) : MonState :=
  { s with criticalRegions := s.criticalRegions.erase id }

/-- `MemoryMonitor::readMemoryRegion` (memory_monitor.cpp lines 650-669):
bounds-checked copy of the region bytes into a caller buffer of `bufSize`
bytes; returns the copied bytes.  A `none` mapping would be a null
`memcpy` source in the source — classified as an I/O failure here. -/
def readMemoryRegion (s : MonState) (id : String) (bufSize : Nat) :
    MRes × List Nat :=
  if s.monitoring = false then
    (.err .notMonitoring, [])
  else
    match lookupR s.regions id with
    | none => (.err .regionNotFound, [])
    | some info =>
      if bufSize < info.size then (.err .ioFailure, [])
      else
        match info.content with
        | some bs => (.ok true, bs.take info.size)
        | none => (.err .ioFailure, [])

/-- Core of `MemoryMonitor::writeMemoryRegion` (memory_monitor.cpp lines
671-692): bounds-checked write of `buf` over the start of the mapping,
then the baseline hash is recomputed over the whole region. -/
def writeGo (H : List Nat → List Nat) (monitoring : Bool)
    (regions : Regions) (id : String) (buf : List Nat) : MRes × Regions :=
  if monitoring = false then
    (.err .notMonitoring, regions)
  else
    match lookupR regions id with
    | none => (.err .regionNotFound, regions)
    | some info =>
      if buf.length > info.size then (.err .ioFailure, regions)
      else
        match info.content with
        | none => (.err .ioFailure, regions)
        | some bs =>
          let bs2 := buf ++ bs.drop buf.length
          let info2 := { info with content := some bs2, hash := H bs2 }
          (.ok true, insertR regions id info2)

/-- `MemoryMonitor::writeMemoryRegion` at the session level. -/
def writeMemoryRegion (H : List Nat → List Nat) (s : MonState) (id : String)
    (buf : List Nat) : MRes × MonState :=
  let r := writeGo H s.monitoring s.regions id buf
  (r.1, { s with regions := r.2 })

/-- Core of `MemoryMonitor::simulateMemoryTampering` (memory_monitor.cpp
lines 713-800).  The regular-file branch writes one byte `'X'` at offset 0
of the external file; that external-world effect is outside the immutable
`fs` model, only the call's result is reflected.  The memory branch flips
the first mapped byte under a temporary writable mprotect (modelled as
succeeding on a live mapping). -/
def simGo (fs : String → FsEntry) (monitoring : Bool) (regions : Regions)
    (id : String) : MRes × Regions × List (String × String) :=
  if monitoring = false then
    (.err .notMonitoring, regions, [])
  else
    match lookupR regions id with
    | none => (.err .regionNotFound, regions, [])
    | some info =>
      if strHasPre id "/" = true then
        if strHasPre id "/proc/" = true then
          let h2 := if info.hash.headD 0 ≠ 255 then 255 :: info.hash.tail
                    else 0 :: info.hash.tail
          let info2 := { info with hash := h2 }
          (.ok true, insertR regions id info2,
            [(id, "Simulated tampering detected for proc file: " ++ id)])
        else
          match fs id with
          | .absent _ => (.err .ioFailure, regions, [])
          | .statFail _ _ => (.err .ioFailure, regions, [])
          | .file c =>
            if c.length > 0 then (.ok true, regions, [])
            else (.ok false, regions, [])
      else
        match info.content with
        | some bs =>
          if info.size > 0 then
            let info2 := { info with content := some (invertFirst bs) }
            (.ok true, insertR regions id info2, [])
          else (.ok false, regions, [])
        | none => (.ok false, regions, [])

/-- `MemoryMonitor::simulateMemoryTampering` at the session level. -/
def simulateMemoryTampering (fs : String → FsEntry) (s : MonState)
    (id : String) : OpOut :=
  let r := simGo fs s.monitoring s.regions id
  ⟨r.1, { s with regions := r.2.1 }, r.2.2⟩

/-- The loop body of `MemoryMonitor::scanAllProtectedRegions`
(memory_monitor.cpp lines 827-838): the running `allRegionsIntact` flag,
the accumulated `compromisedRegions`, the threaded state and the emitted
notifications. -/
def scanAllGo (H : List Nat → List Nat) (fs : String → FsEntry) :
    MonState → List String →
      Bool × List String × MonState × List (String × String)
  | s, [] => (true, [], s, [])
  | s, r :: rs =>
    let o := scanMemoryRegion H fs s r
    let intact := mresIsTrue o.result
    let t := scanAllGo H fs o.state rs
    (intact && t.1, (if intact then [] else [r]) ++ t.2.1, t.2.2.1,
      o.notifs ++ t.2.2.2)

/-- `MemoryMonitor::scanAllProtectedRegions` (memory_monitor.cpp lines
816-858). -/
def scanAllProtectedRegions (H : List Nat → List Nat)
    (fs : String → FsEntry) (s : MonState) : OpOut :=
  if s.monitoring = false then
    ⟨.err .notMonitoring, s, []⟩
  else if s.protectedRegions = [] then
    ⟨.ok true, s, []⟩
  else
    let t := scanAllGo H fs s s.protectedRegions
    let ns := if t.1 then t.2.2.2
      else t.2.2.2 ++
        [("multiple_regions",
          "Compromised regions: " ++ String.intercalate ", " t.2.1)]
    ⟨.ok t.1, t.2.2.1, ns⟩

/-- Specification-side sequential scan: the per-region boolean results (as
the C++ caller sees them), the final state and the concatenated
notifications of scanning a list of identifiers in order. -/
structure SeqOut where
  results : List Bool
  state : MonState
  notifs : List (String × String)
deriving Repr, DecidableEq

/-- Scan a list of identifiers left-to-right, threading the state. -/
def scanSeq (H : List Nat → List Nat) (fs : String → FsEntry) :
    MonState → List String → SeqOut
  | s, [] => ⟨[], s, []⟩
  | s, r :: rs =>
    let o := scanMemoryRegion H fs s r
    let t := scanSeq H fs o.state rs
    ⟨mresIsTrue o.result :: t.results, t.state, o.notifs ++ t.notifs⟩

/-- The identifiers whose paired result is `false`, in iteration order. -/
def failingIds : List String → List Bool → List String
  | [], _ => []
  | _ :: _, [] => []
  | r :: rs, b :: bs => (if b then [] else [r]) ++ failingIds rs bs

/-! ### Helper lemmas -/

/-- Looking a key up right after storing it yields the stored value. -/
theorem lookupR_insertR (l : Regions) (k : String) (v : MemoryRegionInfo) :
    lookupR (insertR l k v) k = some v := by
  induction l with
  | nil => simp [insertR, lookupR]
  | cons p t ih =>
    by_cases h : p.1 = k
    · simp [insertR, lookupR, h]
    · simpa [insertR, lookupR, List.find?, h] using ih

/-- A `/proc/`-prefixed identifier is in particular `/`-prefixed. -/
theorem strHasPre_slash_of_proc {s : String}
    (h : strHasPre s "/proc/" = true) : strHasPre s "/" = true := by
  have e6 : "/proc/".data = ['/', 'p', 'r', 'o', 'c', '/'] := by decide
  have e1 : "/".data = ['/'] := by decide
  unfold strHasPre at h ⊢
  rw [e6] at h
  rw [e1]
  cases hd : s.data with
  | nil => rw [hd] at h; simp [charsPre] at h
  | cons a as =>
    rw [hd] at h
    simp [charsPre] at h ⊢
    exact h.1

/-- `unprotectMemoryRegion` never touches `critical_regions_`. -/
theorem crit_unprotect (s : MonState) (id : String) :
    ((unprotectMemoryRegion s id).2).criticalRegions = s.criticalRegions :=
  rfl

/-- Folding `unprotectMemoryRegion` over a list never touches
`critical_regions_`. -/
theorem crit_foldl_unprotect (l : List String) (s : MonState) :
    (l.foldl (fun t r => (unprotectMemoryRegion t r).2) s).criticalRegions
      = s.criticalRegions := by
  induction l generalizing s with
  | nil => rfl
  | cons a as ih => rw [List.foldl_cons, ih, crit_unprotect]

/-- The loop of `scanAllProtectedRegions` computes: the conjunction of the
per-region results, the failing identifiers in order, and the state and
notifications of the sequential scan. -/
theorem scanAllGo_spec (H : List Nat → List Nat) (fs : String → FsEntry)
    (rs : List String) (s : MonState) :
    scanAllGo H fs s rs =
      ((scanSeq H fs s rs).results.all (fun b => b),
       failingIds rs (scanSeq H fs s rs).results,
       (scanSeq H fs s rs).state,
       (scanSeq H fs s rs).notifs) := by
  induction rs generalizing s with
  | nil => rfl
  | cons r t ih => simp [scanAllGo, scanSeq, ih, failingIds]

/-! ### Concrete fixtures used by witnesses and counterexamples -/

/-- A concrete stand-in hash primitive: content starting with byte 5 maps
to a digest whose first byte is the sentinel `0xFF`; everything else maps
to thirty-two `1`-bytes. -/
def demoH : List Nat → List Nat := fun l =>
  if l.headD 0 == 5 then 255 :: List.replicate 31 9 else List.replicate 32 1

/-- A concrete stand-in hash primitive with no sentinel bytes: content
starting with byte 5 maps to thirty-two `9`-bytes, everything else to
thirty-two `1`-bytes. -/
def demoH2 : List Nat → List Nat := fun l =>
  if l.headD 0 == 5 then List.replicate 32 9 else List.replicate 32 1

/-- A concrete stand-in hash primitive whose two digests differ in one
byte position only: content starting with byte 5 maps to `9` followed by
thirty-one `1`-bytes, everything else to thirty-two `1`-bytes. -/
def demoH3 : List Nat → List Nat := fun l =>
  if l.headD 0 == 5 then 9 :: List.replicate 31 1 else List.replicate 32 1

/-- A concrete filesystem: `/proc/zz` and `/f` hold the single byte `5`,
everything else fails to open. -/
def demoFs : String → FsEntry := fun p =>
  if p == "/proc/zz" then .file [5]
  else if p == "/f" then .file [5]
  else .absent "E"

/-! ### Claim theorems -/

/-- C1 (amended).  On a digest mismatch for a proc-file region during scan:
if fewer than 8 of the 32 digest bytes differ, the new digest becomes the
rolling baseline and the scan reports intact with no notification;
otherwise the scan reports tamper, notifies, and still rolls the baseline
forward, and a next scan of unchanged content reports intact PROVIDED the
rolled-forward digest does not start with byte 0xFF or 0x00 (otherwise the
sentinel short-circuit of memory_monitor.cpp line 127 fires and the next
scan reports tamper again — see the counterexample). -/
theorem c1_proc_tolerance (H : List Nat → List Nat) (fs : String → FsEntry)
    (s : MonState) (id : String) (info : MemoryRegionInfo) (c : List Nat)
    (hm : s.monitoring = true)
    (hl : lookupR s.regions id = some info)
    (hq : strHasPre id "/proc/" = true)
    (hne : id ≠ "/proc/self/status")
    (hb255 : info.hash.headD 0 ≠ 255)
    (hb0 : info.hash.headD 0 ≠ 0)
    (hfs : fs id = .file c)
    (hcur : H (c.take (if c.length = 0 then 4096 else c.length)) ≠ info.hash) :
    (diffCount32 (H (c.take (if c.length = 0 then 4096 else c.length))) info.hash < 8 →
      (scanMemoryRegion H fs s id).result = .ok true ∧
      (scanMemoryRegion H fs s id).notifs = [] ∧
      lookupR (scanMemoryRegion H fs s id).state.regions id =
        some ⟨info.content, (c.take (if c.length = 0 then 4096 else c.length)).length,
          H (c.take (if c.length = 0 then 4096 else c.length)), info.isProtected⟩) ∧
    (¬ diffCount32 (H (c.take (if c.length = 0 then 4096 else c.length))) info.hash < 8 →
      (scanMemoryRegion H fs s id).result = .ok false ∧
      (scanMemoryRegion H fs s id).notifs =
        [(id, "File content tampered: " ++ id ++
          ", Original hash prefix: " ++ hexOfFirst8 info.hash ++
          ", Current hash prefix: " ++
            hexOfFirst8 (H (c.take (if c.length = 0 then 4096 else c.length))))] ∧
      lookupR (scanMemoryRegion H fs s id).state.regions id =
        some ⟨info.content, (c.take (if c.length = 0 then 4096 else c.length)).length,
          H (c.take (if c.length = 0 then 4096 else c.length)), info.isProtected⟩) ∧
    (¬ diffCount32 (H (c.take (if c.length = 0 then 4096 else c.length))) info.hash < 8 →
      (H (c.take (if c.length = 0 then 4096 else c.length))).headD 0 ≠ 255 →
      (H (c.take (if c.length = 0 then 4096 else c.length))).headD 0 ≠ 0 →
      (scanMemoryRegion H fs (scanMemoryRegion H fs s id).state id).result
        = .ok true) := by
  have hslash : strHasPre id "/" = true := strHasPre_slash_of_proc hq
  rcases s with ⟨m, rg, pr, cr⟩
  simp only at hm hl
  subst hm
  simp only [List.headD_eq_head?] at hb255 hb0
  by_cases hcz : c.length = 0
  · rw [if_pos hcz] at hcur ⊢
    refine ⟨?_, ?_, ?_⟩
    · intro hdiff
      simp [scanMemoryRegion, scanGo, hl, hq, hne, hslash, hfs, hcz,
        hb255, hb0, hcur, hdiff, lookupR_insertR]
    · intro hdiff
      simp [scanMemoryRegion, scanGo, hl, hq, hne, hslash, hfs, hcz,
        hb255, hb0, hcur, hdiff, lookupR_insertR]
    · intro hdiff hc255 hc0
      simp only [List.headD_eq_head?] at hc255 hc0
      simp [scanMemoryRegion, scanGo, hl, hq, hne, hslash, hfs, hcz,
        hb255, hb0, hcur, hdiff, hc255, hc0, lookupR_insertR]
  · rw [if_neg hcz] at hcur ⊢
    simp only [List.take_length] at hcur ⊢
    refine ⟨?_, ?_, ?_⟩
    · intro hdiff
      simp [scanMemoryRegion, scanGo, hl, hq, hne, hslash, hfs, hcz,
        hb255, hb0, hcur, hdiff, lookupR_insertR]
    · intro hdiff
      simp [scanMemoryRegion, scanGo, hl, hq, hne, hslash, hfs, hcz,
        hb255, hb0, hcur, hdiff, lookupR_insertR]
    · intro hdiff hc255 hc0
      simp only [List.headD_eq_head?] at hc255 hc0
      simp [scanMemoryRegion, scanGo, hl, hq, hne, hslash, hfs, hcz,
        hb255, hb0, hcur, hdiff, hc255, hc0, lookupR_insertR]

/-- C2 (amended).  `protect(id)` followed immediately by `scan(id)` reports
intact for AnonymousMemory regions and readable RegularFile regions
unconditionally, and for readable ProcFile regions (including a readable,
nonempty `/proc/self/status`) provided the freshly computed baseline
digest does not start with byte 0xFF or 0x00; for an unreadable proc path
other than `/proc/self/status`, `protect` itself fails with IOFailure (the
dummy-region fallback at memory_monitor.cpp lines 495-572 is unreachable)
and the subsequent scan fails with RegionNotFound. -/
theorem c2_protect_then_scan (H : List Nat → List Nat) (fs : String → FsEntry)
    (rnd : List Nat) (s : MonState) (id : String)
    (hm : s.monitoring = true)
    (hpr : id ∉ s.protectedRegions) :
    (strHasPre id "/" = false →
      (protectMemoryRegion H fs rnd s id).1 = .ok true ∧
      (scanMemoryRegion H fs (protectMemoryRegion H fs rnd s id).2 id).result
        = .ok true) ∧
    (∀ c, strHasPre id "/" = true → strHasPre id "/proc/" = false →
      fs id = .file c →
      (protectMemoryRegion H fs rnd s id).1 = .ok true ∧
      (scanMemoryRegion H fs (protectMemoryRegion H fs rnd s id).2 id).result
        = .ok true) ∧
    (∀ c, strHasPre id "/proc/" = true → id ≠ "/proc/self/status" →
      fs id = .file c →
      (H (c.take (if c.length = 0 then 4096 else c.length))).headD 0 ≠ 255 →
      (H (c.take (if c.length = 0 then 4096 else c.length))).headD 0 ≠ 0 →
      (protectMemoryRegion H fs rnd s id).1 = .ok true ∧
      (scanMemoryRegion H fs (protectMemoryRegion H fs rnd s id).2 id).result
        = .ok true) ∧
    (∀ c, id = "/proc/self/status" → fs id = .file c → c ≠ [] →
      (H (c.take 4096)).headD 0 ≠ 255 → (H (c.take 4096)).headD 0 ≠ 0 →
      (protectMemoryRegion H fs rnd s id).1 = .ok true ∧
      (scanMemoryRegion H fs (protectMemoryRegion H fs rnd s id).2 id).result
        = .ok true) ∧
    (∀ e, strHasPre id "/proc/" = true → id ≠ "/proc/self/status" →
      fs id = .absent e → lookupR s.regions id = none →
      (protectMemoryRegion H fs rnd s id).1 = .err .ioFailure ∧
      (scanMemoryRegion H fs (protectMemoryRegion H fs rnd s id).2 id).result
        = .err .regionNotFound) := by
  rcases s with ⟨m, rg, pr, cr⟩
  simp only at hm hpr
  subst hm
  refine ⟨?_, ?_, ?_, ?_, ?_⟩
  · -- AnonymousMemory
    intro hq
    have hnp : strHasPre id "/proc/" = false := by
      by_contra hx
      have hx2 : strHasPre id "/proc/" = true := by simpa using hx
      simp [strHasPre_slash_of_proc hx2] at hq
    simp [protectMemoryRegion, protectGo, scanMemoryRegion, scanGo,
      hpr, hq, hnp, lookupR_insertR]
  · -- RegularFile
    intro c hq hnp hfs
    have hne : id ≠ "/proc/self/status" := by
      intro e
      rw [e] at hnp
      exact absurd hnp (by decide)
    simp [protectMemoryRegion, protectGo, scanMemoryRegion, scanGo,
      hpr, hq, hnp, hne, hfs, lookupR_insertR, List.take_length]
  · -- readable ProcFile other than /proc/self/status
    intro c hq hne hfs hs255 hs0
    have hslash : strHasPre id "/" = true := strHasPre_slash_of_proc hq
    simp only [List.headD_eq_head?] at hs255 hs0
    by_cases hcz : c.length = 0
    · rw [if_pos hcz] at hs255 hs0
      simp [protectMemoryRegion, protectGo, scanMemoryRegion, scanGo,
        hpr, hq, hne, hfs, hslash, hcz, lookupR_insertR, hs255, hs0]
    · rw [if_neg hcz] at hs255 hs0
      simp only [List.take_length] at hs255 hs0
      simp [protectMemoryRegion, protectGo, scanMemoryRegion, scanGo,
        hpr, hq, hne, hfs, hslash, hcz, lookupR_insertR, hs255, hs0]
  · -- /proc/self/status, readable and nonempty
    intro c hid hfs hc hs255 hs0
    subst hid
    have hcl : 0 < c.length := List.length_pos.mpr hc
    have hp1 : strHasPre "/proc/self/status" "/proc/" = true := by decide
    have hp2 : strHasPre "/proc/self/status" "/" = true := by decide
    simp only [List.headD_eq_head?] at hs255 hs0
    simp [protectMemoryRegion, protectGo, scanMemoryRegion, scanGo,
      hpr, hfs, hp1, hp2, lookupR_insertR, hcl, hs255, hs0]
  · -- unreadable proc path: protect fails, scan does not find the region
    intro e hq hne hfs hlk
    have hslash : strHasPre id "/" = true := strHasPre_slash_of_proc hq
    simp [protectMemoryRegion, protectGo, scanMemoryRegion, scanGo,
      hpr, hq, hne, hfs, hslash, hlk]

/-- C3.  `scan_all_protected` scans the protected list in insertion order
(the sequential scan `scanSeq` over `protectedRegions`), returns the
logical AND of the individual scan results (vacuously true when the list
is empty), and, exactly when at least one region fails, appends one
aggregate notification with identifier `"multiple_regions"` whose details
comma-join the failing identifiers, after the per-region notifications
raised by the individual scans. -/
theorem c3_scan_all_protected (H : List Nat → List Nat) (fs : String → FsEntry)
    (s : MonState) (hm : s.monitoring = true) :
    scanAllProtectedRegions H fs s =
      ⟨.ok ((scanSeq H fs s s.protectedRegions).results.all (fun b => b)),
       (scanSeq H fs s s.protectedRegions).state,
       (scanSeq H fs s s.protectedRegions).notifs ++
         (if (scanSeq H fs s s.protectedRegions).results.all (fun b => b) then []
          else [("multiple_regions",
            "Compromised regions: " ++ String.intercalate ", "
              (failingIds s.protectedRegions
                (scanSeq H fs s s.protectedRegions).results))])⟩ := by
  by_cases he : s.protectedRegions = []
  · simp [scanAllProtectedRegions, hm, he, scanSeq]
  · simp only [scanAllProtectedRegions, hm]
    rw [if_neg (by simp), if_neg he, scanAllGo_spec]
    by_cases hall : (scanSeq H fs s s.protectedRegions).results.all (fun b => b)
    · simp [hall]
    · simp only [Bool.not_eq_true] at hall
      simp [hall]

/-- C4.  For a ProcFile region whose stored baseline digest has first byte
0xFF or 0x00, scan immediately reports tamper, issues a notification, and
performs no filesystem access (`fsTouched = false`), leaving the state
unchanged. -/
theorem c4_sentinel_short_circuit (H : List Nat → List Nat) (fs : String → FsEntry)
    (s : MonState) (id : String) (info : MemoryRegionInfo)
    (hm : s.monitoring = true)
    (hl : lookupR s.regions id = some info)
    (hp : strHasPre id "/proc/" = true)
    (hs : info.hash.headD 0 = 255 ∨ info.hash.headD 0 = 0) :
    scanMemoryRegion H fs s id =
      ⟨.ok false, s, [(id, "Simulated tampering detected for: " ++ id)],
        false, false⟩ := by
  rcases s with ⟨m, rg, pr, cr⟩
  simp only at hm hl
  subst hm
  simp only [scanMemoryRegion, scanGo, hl]
  rw [if_neg (by simp), if_pos ⟨hp, hs⟩]

/-- C5.  For a protected regular (non-proc) file whose current on-disk
size differs from the stored baseline size, scan reports tamper
immediately without reading the file content (`contentRead = false`), the
call succeeds with result `false` (not an error), and the baseline is not
rolled forward (the state is unchanged). -/
theorem c5_regular_file_size_change (H : List Nat → List Nat) (fs : String → FsEntry)
    (s : MonState) (id : String) (info : MemoryRegionInfo) (c : List Nat)
    (hm : s.monitoring = true)
    (hl : lookupR s.regions id = some info)
    (hf : strHasPre id "/" = true)
    (hnp : strHasPre id "/proc/" = false)
    (hfs : fs id = .file c)
    (hsz : c.length ≠ info.size) :
    scanMemoryRegion H fs s id =
      ⟨.ok false, s,
        [(id, "File size changed: " ++ id ++
          ", Original size: " ++ toString info.size ++
          ", Current size: " ++ toString c.length)],
        true, false⟩ := by
  have hne : id ≠ "/proc/self/status" := by
    intro e
    rw [e] at hnp
    exact absurd hnp (by decide)
  rcases s with ⟨m, rg, pr, cr⟩
  simp only at hm hl
  subst hm
  simp only [scanMemoryRegion, scanGo, hl]
  rw [if_neg (by simp), if_neg (by simp [hnp]), if_pos hf, if_neg hne, hfs]
  simp only []
  rw [if_pos ⟨hnp, hsz⟩]

/-- C6 (amended).  After `simulate_tamper` on a protected anonymous-memory
region (with a live nonempty mapping whose baseline matches its content,
and whose tampered content hashes differently), the next scan reports
tamper AND leaves the state unchanged — so every further scan without
re-protection reports tamper again; there is no "exactly once" behaviour,
because memory baselines are never rolled forward. -/
theorem c6_simulate_then_scan (H : List Nat → List Nat) (fs : String → FsEntry)
    (s : MonState) (id : String) (info : MemoryRegionInfo) (bs : List Nat)
    (hm : s.monitoring = true)
    (hl : lookupR s.regions id = some info)
    (hf : strHasPre id "/" = false)
    (hc : info.content = some bs)
    (hsz : info.size > 0)
    (hhash : info.hash = H bs)
    (hH : H (invertFirst bs) ≠ H bs) :
    (simulateMemoryTampering fs s id).result = .ok true ∧
    (scanMemoryRegion H fs (simulateMemoryTampering fs s id).state id).result
      = .ok false ∧
    (scanMemoryRegion H fs (simulateMemoryTampering fs s id).state id).state
      = (simulateMemoryTampering fs s id).state := by
  have hnp : strHasPre id "/proc/" = false := by
    by_contra hq
    have hq2 : strHasPre id "/proc/" = true := by simpa using hq
    simp [strHasPre_slash_of_proc hq2] at hf
  rcases s with ⟨m, rg, pr, cr⟩
  simp only at hm hl
  subst hm
  have hsim : simulateMemoryTampering fs ⟨true, rg, pr, cr⟩ id =
      ⟨.ok true, ⟨true, insertR rg id { info with content := some (invertFirst bs) }, pr, cr⟩, []⟩ := by
    simp only [simulateMemoryTampering, simGo, hl]
    rw [if_neg (by simp), hc]
    simp only []
    rw [if_neg (by simp [hf]), if_pos hsz]
  rw [hsim]
  refine ⟨rfl, ?_, ?_⟩ <;>
  · simp only [scanMemoryRegion, scanGo, lookupR_insertR]
    rw [if_neg (by simp), if_neg (by simp [hnp]), if_neg (by simp [hf])]
    rw [if_neg (by simp [hhash]; exact hH)]

/-- C7 (amended).  `stop()` while Idle is a no-op; `stop()` while Active
releases every protected region best-effort, clears the registry and the
protected list, and moves the session to Idle — but the critical-region
bookkeeping is retained, not cleared (the source clears only
`memory_regions` and `protected_regions_`). -/
theorem c7_stop_monitoring (s : MonState) :
    (s.monitoring = false → stopMonitoring s = s) ∧
    (s.monitoring = true → stopMonitoring s =
      ⟨false, [], [], s.criticalRegions⟩) := by
  constructor
  · intro h
    simp [stopMonitoring, h]
  · intro h
    rcases s with ⟨m, rg, pr, cr⟩
    simp only at h
    subst h
    simp only [stopMonitoring]
    rw [if_neg (by simp)]
    simpa using crit_foldl_unprotect pr ⟨true, rg, pr, cr⟩

/-- C8.  Every operation among protect, unprotect, scan,
scan_all_protected, simulate_tamper, and raw read/write invoked while the
session is Idle fails with NotMonitoring and leaves the registry, the
protected list, and every region unchanged. -/
theorem c8_idle_rejects_ops (H : List Nat → List Nat) (fs : String → FsEntry)
    (rnd buf : List Nat) (s : MonState) (id : String) (n : Nat)
    (h : s.monitoring = false) :
    protectMemoryRegion H fs rnd s id = (.err .notMonitoring, s) ∧
    unprotectMemoryRegion s id = (.err .notMonitoring, s) ∧
    scanMemoryRegion H fs s id = ⟨.err .notMonitoring, s, [], false, false⟩ ∧
    scanAllProtectedRegions H fs s = ⟨.err .notMonitoring, s, []⟩ ∧
    simulateMemoryTampering fs s id = ⟨.err .notMonitoring, s, []⟩ ∧
    readMemoryRegion s id n = (.err .notMonitoring, []) ∧
    writeMemoryRegion H s id buf = (.err .notMonitoring, s) := by
  rcases s with ⟨m, rg, pr, cr⟩
  simp only at h
  subst h
  refine ⟨?_, ?_, ?_, ?_, ?_, ?_, ?_⟩ <;>
    simp [protectMemoryRegion, protectGo, unprotectMemoryRegion, unprotectGo,
      scanMemoryRegion, scanGo, scanAllProtectedRegions,
      simulateMemoryTampering, simGo, readMemoryRegion,
      writeMemoryRegion, writeGo]

/-- C9 (amended).  When scan on a regular (non-proc) file path fails to
open or stat the file, the call fails structurally (IOFailure) and the
state is unchanged — but, contrary to the claim, a notification IS issued
through the observer callback, with details "File cannot be opened: ..."
resp. "Failed to get file size: ..." (memory_monitor.cpp lines 160-164
and 175-179). -/
theorem c9_scan_open_failure (H : List Nat → List Nat) (fs : String → FsEntry)
    (s : MonState) (id : String) (info : MemoryRegionInfo)
    (hm : s.monitoring = true)
    (hl : lookupR s.regions id = some info)
    (hf : strHasPre id "/" = true)
    (hnp : strHasPre id "/proc/" = false) :
    (∀ e, fs id = .absent e →
      scanMemoryRegion H fs s id =
        ⟨.err .ioFailure, s,
          [(id, "File cannot be opened: " ++ id ++ ", Error: " ++ e)],
          true, false⟩) ∧
    (∀ c e, fs id = .statFail c e →
      scanMemoryRegion H fs s id =
        ⟨.err .ioFailure, s,
          [(id, "Failed to get file size: " ++ id ++ ", Error: " ++ e)],
          true, false⟩) := by
  have hne : id ≠ "/proc/self/status" := by
    intro e
    rw [e] at hnp
    exact absurd hnp (by decide)
  rcases s with ⟨m, rg, pr, cr⟩
  simp only at hm hl
  subst hm
  constructor
  · intro e hfs
    simp only [scanMemoryRegion, scanGo, hl]
    rw [if_neg (by simp), if_neg (by simp [hnp]), if_pos hf, if_neg hne, hfs]
    simp [hnp]
  · intro c e hfs
    simp only [scanMemoryRegion, scanGo, hl]
    rw [if_neg (by simp), if_neg (by simp [hnp]), if_pos hf, if_neg hne, hfs]
    simp [hnp]

/-- C10.  `addCriticalRegion` and `removeCriticalRegion` are not gated on
the monitoring state (their effect on the critical list is independent of
the `monitoring` flag and they always succeed), adding an identifier
already present leaves the state unchanged, both preserve
no-duplicate-identifiers, and no other operation (protect, unprotect,
scan, simulate, write, stop) changes the critical list at all. -/
theorem c10_critical_regions (H : List Nat → List Nat) (fs : String → FsEntry)
    (rnd : List Nat) (s : MonState) (id : String) :
    (∀ b : Bool, (addCriticalRegion { s with monitoring := b } id).criticalRegions
        = (addCriticalRegion s id).criticalRegions) ∧
    (∀ b : Bool, (removeCriticalRegion { s with monitoring := b } id).criticalRegions
        = (removeCriticalRegion s id).criticalRegions) ∧
    (s.criticalRegions.Nodup → (addCriticalRegion s id).criticalRegions.Nodup) ∧
    (s.criticalRegions.Nodup → (removeCriticalRegion s id).criticalRegions.Nodup) ∧
    (id ∈ s.criticalRegions → addCriticalRegion s id = s) ∧
    ((protectMemoryRegion H fs rnd s id).2.criticalRegions = s.criticalRegions) ∧
    ((unprotectMemoryRegion s id).2.criticalRegions = s.criticalRegions) ∧
    ((scanMemoryRegion H fs s id).state.criticalRegions = s.criticalRegions) ∧
    ((simulateMemoryTampering fs s id).state.criticalRegions = s.criticalRegions) ∧
    ((writeMemoryRegion H s id rnd).2.criticalRegions = s.criticalRegions) ∧
    ((stopMonitoring s).criticalRegions = s.criticalRegions) := by
  refine ⟨?_, ?_, ?_, ?_, ?_, rfl, rfl, rfl, rfl, rfl, ?_⟩
  · intro b
    by_cases h : id ∈ s.criticalRegions <;> simp [addCriticalRegion, h]
  · intro b
    simp [removeCriticalRegion]
  · intro hnd
    by_cases h : id ∈ s.criticalRegions
    · simpa [addCriticalRegion, h] using hnd
    · simp [addCriticalRegion, h, List.nodup_append, hnd]
  · intro hnd
    simpa [removeCriticalRegion] using hnd.erase id
  · intro h
    simp [addCriticalRegion, h]
  · simp only [stopMonitoring]
    split
    · rfl
    · simpa using crit_foldl_unprotect s.protectedRegions s

/-! ### Witnesses and counterexamples -/

/-- A filesystem where only `/proc/self/status` is readable. -/
def demoFs2 : String → FsEntry := fun p =>
  if p == "/proc/self/status" then .file [7] else .absent "E"

/-- A concrete session with one intact and one tampered anonymous region. -/
def demoS3 : MonState :=
  ⟨true, [("a", ⟨some [1], 1, demoH2 [1], true⟩),
          ("b", ⟨some [2], 1, List.replicate 32 4, true⟩)], ["a", "b"], []⟩

/-- A concrete session with one protected anonymous region whose baseline
matches its content. -/
def demoS6 : MonState :=
  ⟨true, [("buf", ⟨some [5], 1, demoH2 [5], false⟩)], ["buf"], []⟩

/-- A concrete session with one proc-file region and a non-sentinel
baseline. -/
def demoS1 : MonState :=
  ⟨true, [("/proc/zz", ⟨none, 1, List.replicate 32 1, false⟩)],
    ["/proc/zz"], []⟩

/-- Witness for C1: under `demoH3` the current digest differs from the
baseline in exactly one byte, so the scan accepts; under `demoH2` it
differs in all 32 bytes, so the scan reports tamper and — the rolled
digest not being a sentinel — the next scan of unchanged content reports
intact. -/
theorem c1_proc_tolerance_witness :
    diffCount32 (demoH3 [5]) (List.replicate 32 1) < 8 ∧
    (scanMemoryRegion demoH3 demoFs demoS1 "/proc/zz").result = .ok true ∧
    ¬ diffCount32 (demoH2 [5]) (List.replicate 32 1) < 8 ∧
    (scanMemoryRegion demoH2 demoFs demoS1 "/proc/zz").result = .ok false ∧
    (scanMemoryRegion demoH2 demoFs
      (scanMemoryRegion demoH2 demoFs demoS1 "/proc/zz").state
      "/proc/zz").result = .ok true :=
  ⟨by decide,
   ((c1_proc_tolerance demoH3 demoFs demoS1 "/proc/zz"
      ⟨none, 1, List.replicate 32 1, false⟩ [5] rfl (by decide) (by decide)
      (by decide) (by decide) (by decide) (by decide) (by decide)).1
      (by decide)).1,
   by decide,
   ((c1_proc_tolerance demoH2 demoFs demoS1 "/proc/zz"
      ⟨none, 1, List.replicate 32 1, false⟩ [5] rfl (by decide) (by decide)
      (by decide) (by decide) (by decide) (by decide) (by decide)).2.1
      (by decide)).1,
   (c1_proc_tolerance demoH2 demoFs demoS1 "/proc/zz"
      ⟨none, 1, List.replicate 32 1, false⟩ [5] rfl (by decide) (by decide)
      (by decide) (by decide) (by decide) (by decide) (by decide)).2.2
      (by decide) (by decide) (by decide)⟩

/-- Counterexample for C1 as stated: with `demoH` the digest mismatch has
32 differing bytes, the scan reports tamper and rolls the baseline
forward, but the rolled digest starts with 0xFF, so the next scan of
unchanged content reports tamper again instead of intact. -/
theorem c1_proc_tolerance_cex :
    (scanMemoryRegion demoH demoFs demoS1 "/proc/zz").result = .ok false ∧
    (scanMemoryRegion demoH demoFs
      (scanMemoryRegion demoH demoFs demoS1 "/proc/zz").state
      "/proc/zz").result = .ok false := by
  decide

/-- Witness for C2: all five behaviours at concrete inputs — anonymous
region, regular file, readable proc file, readable `/proc/self/status`,
and an unreadable proc path whose protect fails. -/
theorem c2_protect_then_scan_witness :
    ("buf" ∉ (⟨true, [], [], []⟩ : MonState).protectedRegions) ∧
    (scanMemoryRegion demoH2 demoFs
      (protectMemoryRegion demoH2 demoFs [7] ⟨true, [], [], []⟩ "buf").2
      "buf").result = .ok true ∧
    (scanMemoryRegion demoH2 demoFs
      (protectMemoryRegion demoH2 demoFs [] ⟨true, [], [], []⟩ "/f").2
      "/f").result = .ok true ∧
    (scanMemoryRegion demoH2 demoFs
      (protectMemoryRegion demoH2 demoFs [] ⟨true, [], [], []⟩ "/proc/zz").2
      "/proc/zz").result = .ok true ∧
    (scanMemoryRegion demoH2 demoFs2
      (protectMemoryRegion demoH2 demoFs2 [] ⟨true, [], [], []⟩
        "/proc/self/status").2 "/proc/self/status").result = .ok true ∧
    (protectMemoryRegion demoH2 demoFs [] ⟨true, [], [], []⟩
      "/proc/blocked").1 = .err .ioFailure :=
  ⟨by decide,
   ((c2_protect_then_scan demoH2 demoFs [7] ⟨true, [], [], []⟩ "buf" rfl
      (by decide)).1 (by decide)).2,
   ((c2_protect_then_scan demoH2 demoFs [] ⟨true, [], [], []⟩ "/f" rfl
      (by decide)).2.1 [5] (by decide) (by decide) (by decide)).2,
   ((c2_protect_then_scan demoH2 demoFs [] ⟨true, [], [], []⟩ "/proc/zz" rfl
      (by decide)).2.2.1 [5] (by decide) (by decide) (by decide) (by decide)
      (by decide)).2,
   ((c2_protect_then_scan demoH2 demoFs2 [] ⟨true, [], [], []⟩
      "/proc/self/status" rfl (by decide)).2.2.2.1 [7] rfl (by decide)
      (by decide) (by decide) (by decide)).2,
   ((c2_protect_then_scan demoH2 demoFs [] ⟨true, [], [], []⟩ "/proc/blocked"
      rfl (by decide)).2.2.2.2 "E" (by decide) (by decide) (by decide)
      (by decide)).1⟩

/-- Counterexample for C2 as stated: for the unreadable proc path
`/proc/blocked`, `protect` fails with IOFailure and the subsequent scan
does not report intact. -/
theorem c2_protect_then_scan_cex :
    (protectMemoryRegion demoH demoFs [] ⟨true, [], [], []⟩
      "/proc/blocked").1 = .err .ioFailure ∧
    (scanMemoryRegion demoH demoFs
      (protectMemoryRegion demoH demoFs [] ⟨true, [], [], []⟩
        "/proc/blocked").2 "/proc/blocked").result ≠ .ok true := by
  decide

/-- Witness for C3 at a concrete session with an intact region `a` and a
tampered region `b`. -/
theorem c3_scan_all_protected_witness :
    demoS3.monitoring = true ∧
    scanAllProtectedRegions demoH2 demoFs demoS3 =
      ⟨.ok ((scanSeq demoH2 demoFs demoS3 demoS3.protectedRegions).results.all
          (fun b => b)),
       (scanSeq demoH2 demoFs demoS3 demoS3.protectedRegions).state,
       (scanSeq demoH2 demoFs demoS3 demoS3.protectedRegions).notifs ++
         (if (scanSeq demoH2 demoFs demoS3
              demoS3.protectedRegions).results.all (fun b => b) then []
          else [("multiple_regions",
            "Compromised regions: " ++ String.intercalate ", "
              (failingIds demoS3.protectedRegions
                (scanSeq demoH2 demoFs demoS3
                  demoS3.protectedRegions).results))])⟩ :=
  ⟨rfl, c3_scan_all_protected demoH2 demoFs demoS3 rfl⟩

/-- Witness for C4 at a concrete proc region whose baseline starts with
0xFF. -/
theorem c4_sentinel_short_circuit_witness :
    ((255 :: List.replicate 31 3 : List Nat).headD 0 = 255 ∨
      (255 :: List.replicate 31 3 : List Nat).headD 0 = 0) ∧
    scanMemoryRegion demoH demoFs
      ⟨true, [("/proc/w", ⟨none, 1, 255 :: List.replicate 31 3, false⟩)],
        [], []⟩ "/proc/w" =
      ⟨.ok false,
       ⟨true, [("/proc/w", ⟨none, 1, 255 :: List.replicate 31 3, false⟩)],
         [], []⟩,
       [("/proc/w", "Simulated tampering detected for: " ++ "/proc/w")],
       false, false⟩ :=
  ⟨Or.inl (by decide),
   c4_sentinel_short_circuit demoH demoFs
     ⟨true, [("/proc/w", ⟨none, 1, 255 :: List.replicate 31 3, false⟩)],
       [], []⟩ "/proc/w" ⟨none, 1, 255 :: List.replicate 31 3, false⟩ rfl
     (by decide) (by decide) (Or.inl (by decide))⟩

/-- Witness for C5 at a concrete regular file whose on-disk size 1 differs
from the baseline size 7. -/
theorem c5_regular_file_size_change_witness :
    (([5] : List Nat).length ≠
      (⟨none, 7, List.replicate 32 2, false⟩ : MemoryRegionInfo).size) ∧
    scanMemoryRegion demoH demoFs
      ⟨true, [("/f", ⟨none, 7, List.replicate 32 2, false⟩)], [], []⟩ "/f" =
      ⟨.ok false,
       ⟨true, [("/f", ⟨none, 7, List.replicate 32 2, false⟩)], [], []⟩,
       [("/f", "File size changed: " ++ "/f" ++
         ", Original size: " ++ toString (7 : Nat) ++
         ", Current size: " ++ toString ([5] : List Nat).length)],
       true, false⟩ :=
  ⟨by decide,
   c5_regular_file_size_change demoH demoFs
     ⟨true, [("/f", ⟨none, 7, List.replicate 32 2, false⟩)], [], []⟩ "/f"
     ⟨none, 7, List.replicate 32 2, false⟩ [5] rfl (by decide) (by decide)
     (by decide) (by decide) (by decide)⟩

/-- Witness for C6: after the simulated tamper the scan reports tamper
and leaves the state unchanged, so the verdict repeats. -/
theorem c6_simulate_then_scan_witness :
    demoH2 (invertFirst [5]) ≠ demoH2 [5] ∧
    (simulateMemoryTampering demoFs demoS6 "buf").result = .ok true ∧
    (scanMemoryRegion demoH2 demoFs
      (simulateMemoryTampering demoFs demoS6 "buf").state "buf").result
      = .ok false ∧
    (scanMemoryRegion demoH2 demoFs
      (simulateMemoryTampering demoFs demoS6 "buf").state "buf").state
      = (simulateMemoryTampering demoFs demoS6 "buf").state :=
  ⟨by decide,
   (c6_simulate_then_scan demoH2 demoFs demoS6 "buf"
      ⟨some [5], 1, demoH2 [5], false⟩ [5] rfl (by decide) (by decide)
      (by decide) (by decide) rfl (by decide)).1,
   (c6_simulate_then_scan demoH2 demoFs demoS6 "buf"
      ⟨some [5], 1, demoH2 [5], false⟩ [5] rfl (by decide) (by decide)
      (by decide) (by decide) rfl (by decide)).2.1,
   (c6_simulate_then_scan demoH2 demoFs demoS6 "buf"
      ⟨some [5], 1, demoH2 [5], false⟩ [5] rfl (by decide) (by decide)
      (by decide) (by decide) rfl (by decide)).2.2⟩

/-- Counterexample for C6 as stated: the second scan after the simulated
tamper reports tamper again — not "exactly once". -/
theorem c6_simulate_then_scan_cex :
    (scanMemoryRegion demoH2 demoFs
      (simulateMemoryTampering demoFs demoS6 "buf").state "buf").result
      = .ok false ∧
    (scanMemoryRegion demoH2 demoFs
      (scanMemoryRegion demoH2 demoFs
        (simulateMemoryTampering demoFs demoS6 "buf").state "buf").state
      "buf").result = .ok false := by
  decide

/-- Witness for C7 at concrete idle and active sessions carrying one
critical region. -/
theorem c7_stop_monitoring_witness :
    ((⟨false, [], [], ["k"]⟩ : MonState).monitoring = false ∧
      stopMonitoring ⟨false, [], [], ["k"]⟩ = ⟨false, [], [], ["k"]⟩) ∧
    ((⟨true, [], [], ["k"]⟩ : MonState).monitoring = true ∧
      stopMonitoring ⟨true, [], [], ["k"]⟩ = ⟨false, [], [],
        (⟨true, [], [], ["k"]⟩ : MonState).criticalRegions⟩) :=
  ⟨⟨rfl, (c7_stop_monitoring ⟨false, [], [], ["k"]⟩).1 rfl⟩,
   ⟨rfl, (c7_stop_monitoring ⟨true, [], [], ["k"]⟩).2 rfl⟩⟩

/-- Counterexample for C7 as stated: stopping an active session does not
clear the critical bookkeeping. -/
theorem c7_stop_monitoring_cex :
    (stopMonitoring ⟨true, [], [], ["k"]⟩).criticalRegions ≠ [] := by
  decide

/-- Witness for C8 at a concrete idle session. -/
theorem c8_idle_rejects_ops_witness :
    (⟨false, [], [], []⟩ : MonState).monitoring = false ∧
    protectMemoryRegion demoH demoFs [] ⟨false, [], [], []⟩ "x" =
      (.err .notMonitoring, ⟨false, [], [], []⟩) ∧
    unprotectMemoryRegion ⟨false, [], [], []⟩ "x" =
      (.err .notMonitoring, ⟨false, [], [], []⟩) ∧
    scanMemoryRegion demoH demoFs ⟨false, [], [], []⟩ "x" =
      ⟨.err .notMonitoring, ⟨false, [], [], []⟩, [], false, false⟩ ∧
    scanAllProtectedRegions demoH demoFs ⟨false, [], [], []⟩ =
      ⟨.err .notMonitoring, ⟨false, [], [], []⟩, []⟩ ∧
    simulateMemoryTampering demoFs ⟨false, [], [], []⟩ "x" =
      ⟨.err .notMonitoring, ⟨false, [], [], []⟩, []⟩ ∧
    readMemoryRegion ⟨false, [], [], []⟩ "x" 0 = (.err .notMonitoring, []) ∧
    writeMemoryRegion demoH ⟨false, [], [], []⟩ "x" [] =
      (.err .notMonitoring, ⟨false, [], [], []⟩) :=
  ⟨rfl, c8_idle_rejects_ops demoH demoFs [] [] ⟨false, [], [], []⟩ "x" 0 rfl⟩

/-- Witness for C9 at a concrete unopenable regular file: the failure is
an IOFailure and a notification is emitted. -/
theorem c9_scan_open_failure_witness :
    demoFs "/g" = .absent "E" ∧
    scanMemoryRegion demoH demoFs
      ⟨true, [("/g", ⟨none, 0, List.replicate 32 2, false⟩)], [], []⟩ "/g" =
      ⟨.err .ioFailure,
       ⟨true, [("/g", ⟨none, 0, List.replicate 32 2, false⟩)], [], []⟩,
       [("/g", "File cannot be opened: " ++ "/g" ++ ", Error: " ++ "E")],
       true, false⟩ :=
  ⟨by decide,
   (c9_scan_open_failure demoH demoFs
      ⟨true, [("/g", ⟨none, 0, List.replicate 32 2, false⟩)], [], []⟩ "/g"
      ⟨none, 0, List.replicate 32 2, false⟩ rfl (by decide) (by decide)
      (by decide)).1 "E" (by decide)⟩

/-- Counterexample for C9 as stated: the open failure on a regular file
does emit a tamper notification. -/
theorem c9_scan_open_failure_cex :
    (scanMemoryRegion demoH demoFs
      ⟨true, [("/g", ⟨none, 0, List.replicate 32 2, false⟩)], [], []⟩
      "/g").notifs ≠ [] := by
  decide

/-- Witness for C10: adding a present identifier is a no-op, and adding a
fresh one preserves no-duplicates. -/
theorem c10_critical_regions_witness :
    ("a" ∈ (⟨false, [], [], ["a"]⟩ : MonState).criticalRegions ∧
      addCriticalRegion ⟨false, [], [], ["a"]⟩ "a" = ⟨false, [], [], ["a"]⟩) ∧
    ((⟨false, [], [], ["a"]⟩ : MonState).criticalRegions.Nodup ∧
      (addCriticalRegion ⟨false, [], [], ["a"]⟩ "b").criticalRegions.Nodup) :=
  ⟨⟨by decide, (c10_critical_regions demoH demoFs [] ⟨false, [], [], ["a"]⟩
      "a").2.2.2.2.1 (by decide)⟩,
   ⟨by decide, (c10_critical_regions demoH demoFs [] ⟨false, [], [], ["a"]⟩
      "b").2.2.1 (by decide)⟩⟩

end MemoryMonitor
